import Mathlib

/-!
Shallow embedding of the AutoGen Multi-Agent Research Assistant
(`workflow.py`, `web_search.py`) and proofs about its result extraction,
contribution analysis, session store, report rendering and fail-soft
search behaviour.

Conventions of the embedding:
* A Python message dict is a `Message` with optional `name`/`content`
  fields; `m.get(k, d)` becomes `(field.getD d)`.
* Python exceptions that escape a function are modelled by `Option`
  results (`none` = an uncaught exception such as `IndexError`/`KeyError`).
* External collaborators (the autogen conversation driver, the
  DuckDuckGo client, `requests`/BeautifulSoup page fetching) are inputs:
  an abstract outcome value is passed to the embedded function.
* Wall-clock times are abstract inputs: the ISO timestamp is an opaque
  string and a duration is a `Nat` counting tenths of a second, so that
  the report's one-decimal rendering of the float is exact.
-/

/-- A conversation message: a Python dict that may or may not carry the
`"name"` and `"content"` keys. -/
structure Message where
  name : Option String
  content : Option String
deriving DecidableEq, Repr

/-- One entry of `results["findings"]`: the dict `{"content": ..., "agent": ...}`
built in `_extract_research_results`. -/
structure Finding where
  content : String
  agent : String
deriving DecidableEq, Repr

/-- The `results` dict initialised at the top of `_extract_research_results`. -/
structure ExtractedResults where
  findings : List Finding
  sources : List String
  synthesis : String
  critique : String
  recommendations : List String
deriving DecidableEq, Repr

/- ---------------------------------------------------------------------
URL harvesting: the embedding of
`re.findall(r'http[s]?://(?:[a-zA-Z]|[0-9]|[$-_@.&+]|[!*\\(\\),]|(?:%[0-9a-fA-F][0-9a-fA-F]))+', content)`.

The alternation matches one character per iteration of the `+`:
`[a-zA-Z]` (0x41-0x5A, 0x61-0x7A), `[0-9]` (0x30-0x39),
`[$-_@.&+]` = the range 0x24-0x5F (which already contains `@ . & +`,
digits, uppercase letters and `%`), `[!*\\(\\),]` = `! * \ ( ) ,`
(all but `!` lie inside 0x24-0x5F), and `%hh` whose characters are all
inside 0x24-0x5F as well.  The union is therefore exactly
`!` (0x21), 0x24-0x5F, and `a`-`z` (0x61-0x7A).
--------------------------------------------------------------------- -/

/-- Character set matched by one iteration of the `+` in the URL regex
of `_extract_research_results` (see the derivation above). -/
def urlChar (c : Char) : Bool :=
  c.toNat == 0x21 || (0x24 ≤ c.toNat && c.toNat ≤ 0x5F) ||
    (0x61 ≤ c.toNat && c.toNat ≤ 0x7A)

/-- Longest prefix of `urlChar` characters together with the remainder
(the greedy `+` of the regex). -/
def takeUrlRun : List Char → List Char × List Char
  | [] => ([], [])
  | c :: cs =>
    if urlChar c then
      let p := takeUrlRun cs
      (c :: p.1, p.2)
    else ([], c :: cs)

/-- Attempt to match the whole regex at the current position:
literal `http`, optional `s`, literal `://`, then at least one `urlChar`.
Returns the matched text and the remaining input. -/
def matchUrl : List Char → Option (String × List Char)
  | 'h' :: 't' :: 't' :: 'p' :: 's' :: ':' :: '/' :: '/' :: rest =>
    let p := takeUrlRun rest
    if p.1.isEmpty then none else some ("https://" ++ String.mk p.1, p.2)
  | 'h' :: 't' :: 't' :: 'p' :: ':' :: '/' :: '/' :: rest =>
    let p := takeUrlRun rest
    if p.1.isEmpty then none else some ("http://" ++ String.mk p.1, p.2)
  | _ => none

/-- Scanner for `re.findall`: left-to-right, non-overlapping matches;
on failure advance one character.  `fuel` bounds the recursion and any
`fuel ≥ length` computes the scan (a match always consumes at least
8 characters, a failure exactly one). -/
def findallUrlsGo : Nat → List Char → List String
  | 0, _ => []
  | _ + 1, [] => []
  | fuel + 1, c :: cs =>
    match matchUrl (c :: cs) with
    | some (u, rest) => u :: findallUrlsGo fuel rest
    | none => findallUrlsGo fuel cs

/-- Embedding of `re.findall(url_regex, content)` in `_extract_research_results`. -/
def findallUrls (s : String) : List String :=
  findallUrlsGo s.data.length s.data

/-- Embedding of `"http" in content` (Python substring containment). -/
def containsHttp : List Char → Bool
  | 'h' :: 't' :: 't' :: 'p' :: _ => true
  | _ :: cs => containsHttp cs
  | [] => false

/-- The body of the `for message in messages` loop of
`_extract_research_results` acting on the accumulated `results` dict. -/
def extractStep (r : ExtractedResults) (m : Message) : ExtractedResults :=
  let content := m.content.getD ""
  let name := m.name.getD ""
  if name == "research_agent" then
    let r1 :=
      if containsHttp content.data then
        { r with sources := r.sources ++ findallUrls content }
      else r
    if content.length > 50 then
      { r1 with findings := r1.findings ++ [⟨content, name⟩] }
    else r1
  else if name == "synthesis_agent" && content.length > 100 then
    { r with synthesis := content }
  else if name == "critique_agent" && content.length > 100 then
    { r with critique := content }
  else r

/-- Embedding of `ResearchWorkflow._extract_research_results`.  The final
`list(set(results["sources"]))` is modelled by `List.dedup`; CPython's
set iteration order is unspecified, and no claim depends on the order,
only on the underlying set and the absence of duplicates. -/
def extractResearchResults (messages : List Message) : ExtractedResults :=
  let r := messages.foldl extractStep ⟨[], [], "", "", []⟩
  { r with sources := r.sources.dedup }

/-- Embedding of `contributions[agent_name] = contributions.get(agent_name, 0) + 1` on an
insertion-ordered dict modelled as an association list. -/
def bumpCount : List (String × Nat) → String → List (String × Nat)
  | [], k => [(k, 1)]
  | (k', v) :: rest, k =>
    if k == k' then (k', v + 1) :: rest else (k', v) :: bumpCount rest k

/-- Embedding of `ResearchWorkflow._analyze_agent_contributions`. -/
def analyzeAgentContributions (messages : List Message) : List (String × Nat) :=
  messages.foldl (fun acc m => bumpCount acc (m.name.getD "unknown")) []

/- ---------------------------------------------------------------------
Research records, the session store and `conduct_research`.
--------------------------------------------------------------------- -/

/-- A research record as built by `conduct_research`: a Python dict whose
key set differs between the success shape (`topic, timestamp,
duration_seconds, messages, results, agent_contributions`) and the
degraded shape (`error, topic, timestamp`).  An `Option` field is `none`
exactly when the key is absent from the dict.  `duration_seconds` counts
tenths of a second (see the module header). -/
structure ResearchRecord where
  topic : String
  timestamp : String
  error : Option String
  duration_seconds : Option Nat
  messages : Option (List Message)
  results : Option ExtractedResults
  agent_contributions : Option (List (String × Nat))
deriving DecidableEq, Repr

/-- Outcome of `user_proxy.initiate_chat(self.manager, ...)` — the
external conversation driver: either it completes and `self.group_chat.messages`
holds the transcript, or it raises an exception whose message is recorded. -/
inductive DriverOutcome where
  | success (transcript : List Message)
  | failure (errMsg : String)
deriving DecidableEq, Repr

/-- The success-shape record assembled inside the `try` block of
`conduct_research`. -/
def successRecord (topic timestamp : String) (duration : Nat)
    (transcript : List Message) : ResearchRecord :=
  ⟨topic, timestamp, none, some duration, some transcript,
   some (extractResearchResults transcript),
   some (analyzeAgentContributions transcript)⟩

/-- The degraded record built in the `except` branch of `conduct_research`. -/
def degradedRecord (errMsg topic timestamp : String) : ResearchRecord :=
  ⟨topic, timestamp, some errMsg, none, none, none, none⟩

/-- Embedding of `ResearchWorkflow.conduct_research`.  Here `history` is
`self.research_history` before the call; the start timestamp, the
measured duration and the driver outcome are abstract inputs.  Returns
the history after the call together with the returned record.  Note the
`except` branch returns the degraded record without appending it. -/
def conduct_research (history : List ResearchRecord) (topic : String)
    (timestamp : String) (duration : Nat) (outcome : DriverOutcome) :
    List ResearchRecord × ResearchRecord :=
  match outcome with
  | .success transcript =>
    let record := successRecord topic timestamp duration transcript
    (history ++ [record], record)
  | .failure errMsg =>
    (history, degradedRecord errMsg topic timestamp)

/- ---------------------------------------------------------------------
Report rendering (`export_research_report`).
--------------------------------------------------------------------- -/

/-- Python list indexing `l[i]` with negative indices;
`none` models an `IndexError`. -/
def pyGet (l : List α) (i : Int) : Option α :=
  if 0 ≤ i then l.get? i.toNat
  else if i.natAbs ≤ l.length then l.get? (l.length - i.natAbs)
  else none

/-- Rendering of the float `duration_seconds` with format `:.1f`,
for a duration given in tenths of a second. -/
def renderDuration (d : Nat) : String :=
  toString (d / 10) ++ "." ++ toString (d % 10)

/-- The `for i, finding in enumerate(results["findings"], 1)` loop of
`export_research_report`. -/
def findingsSection : Nat → List Finding → String
  | _, [] => ""
  | i, f :: fs =>
    "### Finding " ++ toString i ++ "\n\n" ++ f.content ++ "\n\n" ++
      findingsSection (i + 1) fs

/-- The `for source in results["sources"]` loop of `export_research_report`. -/
def sourcesLines : List String → String
  | [] => ""
  | s :: ss => "- " ++ s ++ "\n" ++ sourcesLines ss

/-- The report string assembled by `export_research_report` for one
record; `none` models the `KeyError` raised when the record lacks the
keys the success shape has (a degraded record). -/
def renderReport (research : ResearchRecord) : Option String :=
  match research.results, research.duration_seconds,
      research.agent_contributions with
  | some results, some duration, some contributions =>
    some ("# Research Report\n\n**Topic**: " ++ research.topic ++
      "\n**Date**: " ++ research.timestamp ++
      "\n**Duration**: " ++ renderDuration duration ++ " seconds" ++
      "\n\n## Executive Summary\n\n" ++
      (if results.synthesis ≠ "" then results.synthesis
       else "No synthesis available.") ++
      "\n\n## Detailed Findings\n\n" ++
      findingsSection 1 results.findings ++
      (if results.sources ≠ [] then "## Sources\n\n" ++
        sourcesLines results.sources else "") ++
      (if results.critique ≠ "" then "\n## Critical Analysis\n\n" ++
        results.critique ++ "\n" else "") ++
      "\n## Methodology\n\nThis research was conducted using a " ++
      "multi-agent system with " ++ toString contributions.length ++
      " participating agents.\n")
  | _, _, _ => none

/-- Embedding of `ResearchWorkflow.export_research_report` over the session store
`self.research_history`; `none` models an uncaught exception. -/
def export_research_report (history : List ResearchRecord) (index : Int) :
    Option String :=
  if history.isEmpty || index.natAbs > history.length then
    some "No research found."
  else
    match pyGet history index with
    | some research => renderReport research
    | none => none

/- ---------------------------------------------------------------------
`ResearchWorkflow.reset` and the workflow state it acts on.
--------------------------------------------------------------------- -/

/-- The autogen `GroupChatManager`, abstracted to the configuration it
was constructed with (the only argument varying between constructions in
`workflow.py`). -/
structure GroupChatManager where
  llm_config : List (String × String)
deriving DecidableEq, Repr

/-- The mutable state of a `ResearchWorkflow` instance that `reset`
touches or must preserve. -/
structure WorkflowState where
  llm_config : List (String × String)
  research_history : List ResearchRecord
  group_chat_messages : List Message
  manager : GroupChatManager
deriving DecidableEq, Repr

/-- Embedding of `ResearchWorkflow.reset`: clears `self.group_chat.messages` and
re-creates `self.manager` from `self.llm_config`. -/
def reset (st : WorkflowState) : WorkflowState :=
  { st with group_chat_messages := [], manager := ⟨st.llm_config⟩ }

/- ---------------------------------------------------------------------
`web_search.py`: the fail-soft search provider.
--------------------------------------------------------------------- -/

/-- One raw DuckDuckGo result dict, whose `title`/`link`/`body` keys may
be absent (`result.get(k, "")` in the source). -/
structure RawSearchResult where
  title : Option String
  link : Option String
  body : Option String
deriving DecidableEq, Repr

/-- One entry of the list returned by `WebSearcher.search`. -/
structure SearchResult where
  title : String
  link : String
  snippet : String
deriving DecidableEq, Repr

/-- Embedding of `WebSearcher.search`: the external `self.ddgs.text(query, ...)` call
either returns raw results or raises; any exception is caught and the
empty list returned. -/
def WebSearcher.search (ddgsOutcome : Except String (List RawSearchResult)) :
    List SearchResult :=
  match ddgsOutcome with
  | .ok rs => rs.map fun r => ⟨r.title.getD "", r.link.getD "", r.body.getD ""⟩
  | .error _ => []

/-- What the external `requests.get` + BeautifulSoup pipeline of
`_fallback_extract` yields before the repository's own text processing:
the page's visible text (`soup.get_text()` after dropping `script`/`style`
elements) and the title-tag string when present. -/
structure FetchedPage where
  title : Option String
  visibleText : String
deriving DecidableEq, Repr

/-- The dict returned by `WebSearcher._fallback_extract`. -/
structure FallbackResult where
  title : String
  text : String
  summary : String
deriving DecidableEq, Repr

/-- Python `str.strip()` on a character list (ASCII whitespace;
Python also strips a few rarer Unicode space characters, which the
claims do not exercise). -/
def pyStripChars (cs : List Char) : List Char :=
  ((cs.dropWhile Char.isWhitespace).reverse.dropWhile Char.isWhitespace).reverse

/-- Python `str.splitlines()` restricted to the `\n`, `\r`, `\r\n`
terminators (the rarer Unicode line breaks are not exercised by the
claims): no trailing empty line for a trailing terminator. -/
def pySplitlines : List Char → List Char → List (List Char)
  | [], cur => if cur.isEmpty then [] else [cur.reverse]
  | '\r' :: '\n' :: rest, cur => cur.reverse :: pySplitlines rest []
  | '\r' :: rest, cur => cur.reverse :: pySplitlines rest []
  | '\n' :: rest, cur => cur.reverse :: pySplitlines rest []
  | c :: rest, cur => pySplitlines rest (c :: cur)

/-- Python `line.split("  ")`: split on each non-overlapping occurrence
of two spaces, scanning left to right. -/
def pySplitTwoSpaces : List Char → List Char → List (List Char)
  | ' ' :: ' ' :: rest, cur => cur.reverse :: pySplitTwoSpaces rest []
  | c :: rest, cur => pySplitTwoSpaces rest (c :: cur)
  | [], cur => [cur.reverse]

/-- Lines 110-113 of `web_search.py`: strip each line of the visible
text, split lines on double spaces, strip the phrases, and join the
non-empty chunks with single spaces. -/
def normalizeVisibleText (text : String) : String :=
  let lines := (pySplitlines text.data []).map pyStripChars
  let chunks := lines.flatMap fun l => (pySplitTwoSpaces l []).map pyStripChars
  String.intercalate " " ((chunks.filter fun c => !c.isEmpty).map String.mk)

/-- Embedding of `WebSearcher._fallback_extract`: the fetch outcome is an abstract
input; any exception is caught and the all-empty dict returned, otherwise
text and summary are the normalized visible text truncated to its first
5000 and 500 characters. -/
def WebSearcher.fallback_extract (fetchOutcome : Except String FetchedPage) :
    FallbackResult :=
  match fetchOutcome with
  | .ok page =>
    let text := normalizeVisibleText page.visibleText
    ⟨page.title.getD "", text.take 5000, text.take 500⟩
  | .error _ => ⟨"", "", ""⟩

/-- The dict newspaper3k's successful path returns from
`WebSearcher.extract_article_content`. -/
structure ArticleData where
  title : String
  authors : List String
  publish_date : Option String
  text : String
  summary : String
  keywords : List String
deriving DecidableEq, Repr

/-- Return value of `WebSearcher.extract_article_content`: the rich
newspaper3k dict or the fallback dict. -/
inductive ExtractOutput where
  | rich (a : ArticleData)
  | basic (r : FallbackResult)
deriving DecidableEq, Repr

/-- Embedding of `WebSearcher.extract_article_content`: uses newspaper3k when it is
importable and its download/parse/nlp pipeline (an abstract outcome)
succeeds; otherwise falls back to `_fallback_extract`. -/
def WebSearcher.extract_article_content (newspaperAvailable : Bool)
    (articleOutcome : Except String ArticleData)
    (fetchOutcome : Except String FetchedPage) : ExtractOutput :=
  if newspaperAvailable then
    match articleOutcome with
    | .ok a => .rich a
    | .error _ => .basic (WebSearcher.fallback_extract fetchOutcome)
  else .basic (WebSearcher.fallback_extract fetchOutcome)

/- ---------------------------------------------------------------------
Derived predicates describing the extractor's branches, used to state
the claims.
--------------------------------------------------------------------- -/

/-- Embedding of `message.get("content", "")`. -/
def contentOf (m : Message) : String := m.content.getD ""

/-- Embedding of `message.get("name", "")`. -/
def nameOf (m : Message) : String := m.name.getD ""

/-- The message enters the `name == "research_agent"` branch. -/
def isResearchMsg (m : Message) : Bool := nameOf m == "research_agent"

/-- A research message long enough (`len(content) > 50`) to become a finding. -/
def isLongResearch (m : Message) : Bool :=
  isResearchMsg m && decide (50 < (contentOf m).length)

/-- A synthesis message long enough (`len(content) > 100`) to overwrite
`results["synthesis"]`. -/
def isQualSynthesis (m : Message) : Bool :=
  (nameOf m == "synthesis_agent") && decide (100 < (contentOf m).length)

/-- A critique message long enough (`len(content) > 100`) to overwrite
`results["critique"]`. -/
def isQualCritique (m : Message) : Bool :=
  (nameOf m == "critique_agent") && decide (100 < (contentOf m).length)

/-- The URLs one message contributes to `results["sources"]`
(independent of the message's length). -/
def urlsOfMessage (m : Message) : List String :=
  if isResearchMsg m && containsHttp (contentOf m).data then
    findallUrls (contentOf m)
  else []

/-- The finding dict appended for a long research message. -/
def mkFinding (m : Message) : Finding := ⟨contentOf m, nameOf m⟩

/- ---------------------------------------------------------------------
Loop-body projection lemmas for `extractStep`.
--------------------------------------------------------------------- -/

theorem extractStep_findings (r : ExtractedResults) (m : Message) :
    (extractStep r m).findings =
      r.findings ++ if isLongResearch m then [mkFinding m] else [] := by
  simp only [extractStep, isLongResearch, isResearchMsg, mkFinding, contentOf,
    nameOf, Bool.and_eq_true, decide_eq_true_eq, beq_iff_eq]
  split_ifs <;> simp_all

theorem extractStep_sources (r : ExtractedResults) (m : Message) :
    (extractStep r m).sources = r.sources ++ urlsOfMessage m := by
  simp only [extractStep, urlsOfMessage, isResearchMsg, contentOf, nameOf,
    Bool.and_eq_true, decide_eq_true_eq, beq_iff_eq]
  split_ifs <;> simp_all

theorem extractStep_synthesis (r : ExtractedResults) (m : Message) :
    (extractStep r m).synthesis =
      if isQualSynthesis m then contentOf m else r.synthesis := by
  simp only [extractStep, isQualSynthesis, contentOf, nameOf,
    Bool.and_eq_true, decide_eq_true_eq, beq_iff_eq]
  split_ifs <;> simp_all

theorem extractStep_critique (r : ExtractedResults) (m : Message) :
    (extractStep r m).critique =
      if isQualCritique m then contentOf m else r.critique := by
  simp only [extractStep, isQualCritique, contentOf, nameOf,
    Bool.and_eq_true, decide_eq_true_eq, beq_iff_eq]
  split_ifs <;> simp_all

/- ---------------------------------------------------------------------
Whole-scan invariants of `_extract_research_results`.
--------------------------------------------------------------------- -/

theorem foldl_extractStep_findings (ms : List Message)
    (acc : ExtractedResults) :
    (ms.foldl extractStep acc).findings =
      acc.findings ++ (ms.filter isLongResearch).map mkFinding := by
  induction ms generalizing acc with
  | nil => simp
  | cons m ms ih =>
    rw [List.foldl_cons, ih, extractStep_findings, List.filter_cons]
    by_cases h : isLongResearch m = true <;> simp [h]

theorem foldl_extractStep_sources (ms : List Message)
    (acc : ExtractedResults) :
    (ms.foldl extractStep acc).sources =
      acc.sources ++ ms.flatMap urlsOfMessage := by
  induction ms generalizing acc with
  | nil => simp
  | cons m ms ih =>
    rw [List.foldl_cons, ih, extractStep_sources]
    simp

theorem foldl_extractStep_synthesis (ms : List Message)
    (acc : ExtractedResults) :
    (ms.foldl extractStep acc).synthesis =
      ((ms.filter isQualSynthesis).map contentOf).getLastD acc.synthesis := by
  induction ms generalizing acc with
  | nil => simp
  | cons m ms ih =>
    rw [List.foldl_cons, ih, extractStep_synthesis, List.filter_cons]
    by_cases h : isQualSynthesis m = true
    · rw [if_pos h, if_pos h, List.map_cons, List.getLastD_cons]
    · rw [if_neg h, if_neg h]

theorem foldl_extractStep_critique (ms : List Message)
    (acc : ExtractedResults) :
    (ms.foldl extractStep acc).critique =
      ((ms.filter isQualCritique).map contentOf).getLastD acc.critique := by
  induction ms generalizing acc with
  | nil => simp
  | cons m ms ih =>
    rw [List.foldl_cons, ih, extractStep_critique, List.filter_cons]
    by_cases h : isQualCritique m = true
    · rw [if_pos h, if_pos h, List.map_cons, List.getLastD_cons]
    · rw [if_neg h, if_neg h]

theorem extractResearchResults_findings (ms : List Message) :
    (extractResearchResults ms).findings =
      (ms.filter isLongResearch).map mkFinding := by
  simp [extractResearchResults, foldl_extractStep_findings]

theorem extractResearchResults_sources (ms : List Message) :
    (extractResearchResults ms).sources =
      (ms.flatMap urlsOfMessage).dedup := by
  simp [extractResearchResults, foldl_extractStep_sources]

/-- C4: for every transcript, the extracted `synthesis` equals the content
of the last synthesis-agent message longer than 100 characters (and the
empty string when there is none), and likewise `critique` equals the
content of the last qualifying critique-agent message: last-writer-wins,
never a concatenation.  In particular, with two or more qualifying
synthesis messages only the later one survives. -/
theorem extract_last_writer_wins (ms : List Message) :
    (extractResearchResults ms).synthesis =
      ((ms.filter isQualSynthesis).map contentOf).getLastD "" ∧
    (extractResearchResults ms).critique =
      ((ms.filter isQualCritique).map contentOf).getLastD "" := by
  constructor
  · have h := foldl_extractStep_synthesis ms ⟨[], [], "", "", []⟩
    simpa [extractResearchResults] using h
  · have h := foldl_extractStep_critique ms ⟨[], [], "", "", []⟩
    simpa [extractResearchResults] using h

/-- C5: the findings are exactly the research-agent messages longer than
50 characters, in transcript order; hence there are at most as many
findings as research-agent messages and every finding's content exceeds
50 characters; and the raw sources are harvested from research-agent
messages regardless of their length (`urlsOfMessage` does not inspect
the length). -/
theorem extract_findings_characterization (ms : List Message) :
    (extractResearchResults ms).findings =
      (ms.filter isLongResearch).map mkFinding ∧
    (extractResearchResults ms).findings.length ≤
      (ms.filter isResearchMsg).length ∧
    ((extractResearchResults ms).findings.all
      fun f => 50 < f.content.length) = true ∧
    (extractResearchResults ms).sources =
      (ms.flatMap urlsOfMessage).dedup := by
  refine ⟨extractResearchResults_findings ms, ?_, ?_,
    extractResearchResults_sources ms⟩
  · rw [extractResearchResults_findings, List.length_map]
    have : ms.filter isLongResearch =
        (ms.filter isResearchMsg).filter
          fun m => decide (50 < (contentOf m).length) := by
      rw [List.filter_filter]
      apply List.filter_congr
      intro m _
      simp [isLongResearch, Bool.and_comm]
    rw [this]
    exact List.length_filter_le _ _
  · rw [extractResearchResults_findings, List.all_eq_true]
    intro f hf
    rw [List.mem_map] at hf
    obtain ⟨m, hm, rfl⟩ := hf
    rw [List.mem_filter] at hm
    have h2 := hm.2
    simp only [isLongResearch, Bool.and_eq_true, decide_eq_true_eq] at h2
    simpa [mkFinding] using h2.2

/-- C6: the extractor's `sources` list never contains duplicates: it is
`list(set(...))` of the harvested URLs. -/
theorem extract_sources_nodup (ms : List Message) :
    ((extractResearchResults ms).sources).Nodup := by
  rw [extractResearchResults_sources]
  exact List.nodup_dedup _

/- ---------------------------------------------------------------------
Contribution analyzer lemmas.
--------------------------------------------------------------------- -/

/-- Sum of the per-agent counts of a contributions dict. -/
def sumCounts (l : List (String × Nat)) : Nat := (l.map Prod.snd).sum

/-- The count stored for key `k` (`0` when the key is absent). -/
def lookupCount (l : List (String × Nat)) (k : String) : Nat :=
  (l.lookup k).getD 0

theorem sumCounts_bumpCount (l : List (String × Nat)) (k : String) :
    sumCounts (bumpCount l k) = sumCounts l + 1 := by
  induction l with
  | nil => simp [bumpCount, sumCounts]
  | cons p rest ih =>
    obtain ⟨k', v⟩ := p
    by_cases h : (k == k') = true
    · simp [bumpCount, h, sumCounts]
      omega
    · simp only [bumpCount, h, Bool.false_eq_true, if_false]
      simp [sumCounts] at ih ⊢
      omega

theorem lookupCount_bumpCount_self (l : List (String × Nat)) (k : String) :
    lookupCount (bumpCount l k) k = lookupCount l k + 1 := by
  induction l with
  | nil => simp [bumpCount, lookupCount, List.lookup]
  | cons p rest ih =>
    obtain ⟨k', v⟩ := p
    by_cases h : (k == k') = true
    · simp [bumpCount, h, lookupCount, List.lookup]
    · simp [bumpCount, h, lookupCount, List.lookup] at ih ⊢
      exact ih

theorem lookupCount_bumpCount_other (l : List (String × Nat)) (k k' : String)
    (hne : (k' == k) = false) :
    lookupCount (bumpCount l k) k' = lookupCount l k' := by
  induction l with
  | nil => simp [bumpCount, lookupCount, List.lookup, hne]
  | cons p rest ih =>
    obtain ⟨k'', v⟩ := p
    by_cases h : (k == k'') = true
    · have hne' : (k' == k'') = false := by
        rw [beq_iff_eq] at h
        subst h
        exact hne
      simp [bumpCount, h, lookupCount, List.lookup, hne']
    · by_cases h2 : (k' == k'') = true
      · simp [bumpCount, h, lookupCount, List.lookup, h2]
      · simp [bumpCount, h, lookupCount, List.lookup, h2] at ih ⊢
        exact ih

theorem foldl_bumpCount_sum (ms : List Message) (acc : List (String × Nat)) :
    sumCounts (ms.foldl (fun acc m => bumpCount acc (m.name.getD "unknown")) acc)
      = sumCounts acc + ms.length := by
  induction ms generalizing acc with
  | nil => simp
  | cons m ms ih =>
    rw [List.foldl_cons, ih, sumCounts_bumpCount]
    simp
    omega

theorem foldl_bumpCount_lookup (ms : List Message) (acc : List (String × Nat))
    (k : String) :
    lookupCount
        (ms.foldl (fun acc m => bumpCount acc (m.name.getD "unknown")) acc) k
      = lookupCount acc k +
        (ms.filter fun m => m.name.getD "unknown" == k).length := by
  induction ms generalizing acc with
  | nil => simp
  | cons m ms ih =>
    rw [List.foldl_cons, ih, List.filter_cons]
    by_cases h : (m.name.getD "unknown" == k) = true
    · rw [if_pos h]
      rw [beq_iff_eq] at h
      subst h
      rw [lookupCount_bumpCount_self]
      simp
      omega
    · rw [if_neg (by simp [h])]
      have hne : (k == m.name.getD "unknown") = false := by
        cases hkk : k == m.name.getD "unknown"
        · rfl
        · rw [beq_iff_eq] at hkk
          subst hkk
          simp at h
      rw [lookupCount_bumpCount_other _ _ _ hne]

/-- C7: `_analyze_agent_contributions` is total, counts a message lacking
a `name` under `"unknown"`, maps each speaker name to the number of its
messages, its counts sum to the transcript length, and the empty
transcript yields the empty mapping. -/
theorem analyze_agent_contributions_spec (ms : List Message) :
    sumCounts (analyzeAgentContributions ms) = ms.length ∧
    (∀ k : String, lookupCount (analyzeAgentContributions ms) k =
      (ms.filter fun m => m.name.getD "unknown" == k).length) ∧
    analyzeAgentContributions [] = [] := by
  refine ⟨?_, ?_, rfl⟩
  · have h := foldl_bumpCount_sum ms []
    simpa [analyzeAgentContributions, sumCounts] using h
  · intro k
    have h := foldl_bumpCount_lookup ms [] k
    simpa [analyzeAgentContributions, lookupCount, List.lookup] using h

/- ---------------------------------------------------------------------
Claims about `conduct_research`, `reset` and the session store.
--------------------------------------------------------------------- -/

/-- C3 (amended): on a completed run `conduct_research` appends exactly
one success-shape record to the session store, leaving the previously
stored records untouched and in order; on a failed run it returns the
degraded record without appending anything, so the store is unchanged. -/
theorem conduct_research_store_effect (history : List ResearchRecord)
    (topic timestamp : String) (duration : Nat) :
    (∀ transcript : List Message,
      (conduct_research history topic timestamp duration
          (.success transcript)).1
        = history ++ [successRecord topic timestamp duration transcript]) ∧
    (∀ errMsg : String,
      (conduct_research history topic timestamp duration
          (.failure errMsg)).1 = history) := by
  exact ⟨fun _ => rfl, fun _ => rfl⟩

/-- C3 counterexample: the claim says a record is appended on a failed
run as well, but the `except` branch of `conduct_research` returns the
degraded record without appending it — starting from an empty store, the
store still has length 0 after a failed run, not 1. -/
theorem conduct_research_failure_appends_nothing :
    ((conduct_research [] "quantum computing" "2024-01-01T00:00:00" 0
        (.failure "boom")).1).length ≠ 1 := by
  decide

/-- C8: any exception raised by the conversation driver is caught at the
orchestrator boundary (the embedded `conduct_research` is total on the
failure outcome, with no retry of the driver), and the returned degraded
record carries exactly the keys `error`, `topic` and `timestamp` — no
duration, no transcript, no extracted results, no contribution counts. -/
theorem conduct_research_failure_shape (history : List ResearchRecord)
    (topic timestamp : String) (duration : Nat) (errMsg : String) :
    ((conduct_research history topic timestamp duration
        (.failure errMsg)).2).error = some errMsg ∧
    ((conduct_research history topic timestamp duration
        (.failure errMsg)).2).topic = topic ∧
    ((conduct_research history topic timestamp duration
        (.failure errMsg)).2).timestamp = timestamp ∧
    ((conduct_research history topic timestamp duration
        (.failure errMsg)).2).duration_seconds = none ∧
    ((conduct_research history topic timestamp duration
        (.failure errMsg)).2).messages = none ∧
    ((conduct_research history topic timestamp duration
        (.failure errMsg)).2).results = none ∧
    ((conduct_research history topic timestamp duration
        (.failure errMsg)).2).agent_contributions = none := by
  exact ⟨rfl, rfl, rfl, rfl, rfl, rfl, rfl⟩

/-- C9: the search provider fails soft.  A failing DuckDuckGo call makes
`search` return the empty list (never raise); a successful fallback fetch
yields the page title with the normalized visible text truncated to its
first 5000 characters as `text` and first 500 as `summary`; a failing
fallback fetch yields the all-empty default dict; and
`extract_article_content` degrades to `_fallback_extract` both when
newspaper3k is unavailable and when its pipeline raises.  All four
embedded operations are total functions, so no input makes them raise. -/
theorem web_search_fails_soft (e : String) (page : FetchedPage)
    (articleOutcome : Except String ArticleData)
    (fetchOutcome : Except String FetchedPage) :
    WebSearcher.search (.error e) = [] ∧
    WebSearcher.fallback_extract (.ok page) =
      ⟨page.title.getD "",
       (normalizeVisibleText page.visibleText).take 5000,
       (normalizeVisibleText page.visibleText).take 500⟩ ∧
    WebSearcher.fallback_extract (.error e) = ⟨"", "", ""⟩ ∧
    WebSearcher.extract_article_content false articleOutcome fetchOutcome =
      .basic (WebSearcher.fallback_extract fetchOutcome) ∧
    WebSearcher.extract_article_content true (.error e) fetchOutcome =
      .basic (WebSearcher.fallback_extract fetchOutcome) := by
  exact ⟨rfl, rfl, rfl, rfl, rfl⟩

/-- C10: `reset` clears only the pending group-chat transcript and
re-creates the manager from `self.llm_config`; the session store
`research_history` (and the configuration) is left word-for-word
unchanged, every stored record in its original position. -/
theorem reset_preserves_history (st : WorkflowState) :
    (reset st).research_history = st.research_history ∧
    (reset st).group_chat_messages = [] ∧
    (reset st).manager = ⟨st.llm_config⟩ ∧
    (reset st).llm_config = st.llm_config := by
  exact ⟨rfl, rfl, rfl, rfl⟩

/- ---------------------------------------------------------------------
Report export: guard analysis and concrete extraction tests.
--------------------------------------------------------------------- -/

theorem pyGet_some_bounds {α : Type} {l : List α} {i : Int} {a : α}
    (h : pyGet l i = some a) : l ≠ [] ∧ i.natAbs ≤ l.length := by
  unfold pyGet at h
  by_cases hpos : 0 ≤ i
  · rw [if_pos hpos] at h
    obtain ⟨hlt, -⟩ := List.get?_eq_some.mp h
    refine ⟨?_, by omega⟩
    intro hnil
    subst hnil
    simp at hlt
  · rw [if_neg hpos] at h
    by_cases hle : i.natAbs ≤ l.length
    · rw [if_pos hle] at h
      obtain ⟨hlt, -⟩ := List.get?_eq_some.mp h
      refine ⟨?_, hle⟩
      intro hnil
      subst hnil
      simp at hlt
    · rw [if_neg hle] at h
      exact absurd h (by simp)

/-- C1 (amended): `export_research_report` returns the literal
`"No research found."` whenever the store is empty or `abs(index)`
exceeds the store length, and renders the record found at the index
whenever the Python lookup `history[index]` succeeds (negative indices
included).  The guard `abs(index) > len(...)` does not cover the
out-of-range index `index = len(history)`, for which the lookup raises
`IndexError` instead (see the counterexample). -/
theorem export_research_report_spec (history : List ResearchRecord)
    (index : Int) :
    (history = [] ∨ history.length < index.natAbs →
      export_research_report history index = some "No research found.") ∧
    (∀ research : ResearchRecord, pyGet history index = some research →
      export_research_report history index = renderReport research) := by
  constructor
  · intro h
    rcases h with h | h
    · simp [export_research_report, h]
    · simp [export_research_report, h]
  · intro research hres
    obtain ⟨hne, hle⟩ := pyGet_some_bounds hres
    have hcond :
        (history.isEmpty || decide (index.natAbs > history.length)) = false := by
      rw [Bool.or_eq_false_iff]
      constructor
      · simpa [List.isEmpty_iff] using hne
      · simp
        omega
    simp only [export_research_report, hcond, Bool.false_eq_true, if_false]
    rw [hres]

/-- A concrete success-shape record for exercising the report export. -/
def sampleRecord : ResearchRecord :=
  ⟨"topic", "2024-01-01T00:00:00", none, some 12, some [],
   some ⟨[], [], "", "", []⟩, some []⟩

/-- C1 counterexample: `index = 1` is out of range for a one-record
store, so the claim demands the literal `"No research found."`; the code
passes the `abs(index) > len` guard (`1 > 1` is false) and the list
access raises `IndexError` (modelled by `none`). -/
theorem export_research_report_len_index_raises :
    export_research_report [sampleRecord] 1 ≠ some "No research found." := by
  decide

theorem export_research_report_spec_witness :
    export_research_report [] 0 = some "No research found." ∧
    export_research_report [sampleRecord] 0 = renderReport sampleRecord :=
  ⟨(export_research_report_spec [] 0).1 (Or.inl rfl),
   (export_research_report_spec [sampleRecord] 0).2 sampleRecord (by decide)⟩

/- ---------------------------------------------------------------------
C2: the end-to-end extraction test of the spec.
--------------------------------------------------------------------- -/

/-- The research message of the spec's end-to-end test (64 characters). -/
def c2Content : String :=
  "Found at https://example.com/a and https://example.com/a - short"

/-- A 120-character synthesis text. -/
def c2Synthesis : String := String.mk (List.replicate 120 'x')

/-- The spec's two-message test transcript. -/
def c2Transcript : List Message :=
  [⟨some "research_agent", some c2Content⟩,
   ⟨some "synthesis_agent", some c2Synthesis⟩]

set_option maxRecDepth 4096 in
/-- C2 counterexample: the claim (and the spec's end-to-end test) says
this transcript yields `findings == []` because the research message's
"length ≤ 50"; the message is in fact 64 characters long, exceeds the
threshold and becomes a finding, so the claimed conjunction is false. -/
theorem c2_extraction_counterexample :
    ¬ ((extractResearchResults c2Transcript).sources =
        ["https://example.com/a"] ∧
       (extractResearchResults c2Transcript).findings = [] ∧
       (extractResearchResults c2Transcript).synthesis = c2Synthesis) := by
  decide

set_option maxRecDepth 4096 in
/-- C2 (amended): on the spec's transcript the extractor deduplicates the
twice-occurring URL into a singleton source list and copies the
120-character synthesis verbatim, but the 64-character research message
(longer than the 50-character threshold) also produces one finding. -/
theorem c2_extraction :
    (extractResearchResults c2Transcript).sources =
      ["https://example.com/a"] ∧
    (extractResearchResults c2Transcript).findings =
      [⟨c2Content, "research_agent"⟩] ∧
    (extractResearchResults c2Transcript).synthesis = c2Synthesis ∧
    c2Content.length = 64 ∧ c2Synthesis.length = 120 := by
  decide
